import Mathlib

/-!
Verification development for the payment orchestration flow of the i-net
mobile storefront client.

The definitions below are a shallow embedding of the payment modal
(`src/components/PaymentModal.tsx`) together with the response envelope of
the HTTP client (`src/services/api.ts`).  The component's React state
hooks become the fields of `ModalState`; each event handler of the source
(`handleSubmitPhone`, `handleSubmitManualPayment`, the poll/countdown
interval bodies, `handleTimeout`, `handleClose`, `handleRetry`,
`handleBack`, the settings-load effect) becomes a Lean function from the
state to a new state plus a list of observable actions (network calls,
alerts, caller notifications).  Asynchronous handlers are embedded
atomically: the event carries the eventual response of the awaited
gateway call.  User events are guarded by the render conditions under
which the source makes the corresponding control reachable.
-/

namespace INet

/-- JS `\s` / whitespace class used by `String.replace(/\s/g,'')` and
`String.trim()` (space, tab, LF, VT, FF, CR, NBSP, and the Unicode
space separators, line/paragraph separators and BOM). -/
def jsWhitespace (c : Char) : Bool :=
  c.toNat == 32 || c.toNat == 9 || c.toNat == 10 || c.toNat == 11 ||
  c.toNat == 12 || c.toNat == 13 || c.toNat == 0xA0 || c.toNat == 0x1680 ||
  (0x2000 ≤ c.toNat && c.toNat ≤ 0x200A) || c.toNat == 0x2028 ||
  c.toNat == 0x2029 || c.toNat == 0x202F || c.toNat == 0x205F ||
  c.toNat == 0x3000 || c.toNat == 0xFEFF

/-- `phone.replace(/\s/g, '')`: remove every whitespace character. -/
def stripWsL (cs : List Char) : List Char :=
  cs.filter (fun c => !jsWhitespace c)

/-- `String.prototype.trim()`: drop whitespace from both ends. -/
def jsTrimL (cs : List Char) : List Char :=
  ((cs.dropWhile jsWhitespace).reverse.dropWhile jsWhitespace).reverse

/-- JS regex `\d` (no `u` flag): ASCII digit. -/
def isAsciiDigit (c : Char) : Bool :=
  '0' ≤ c && c ≤ '9'

/-- `\d{9}$` applied after a matched prefix: exactly nine ASCII digits. -/
def nineDigits (cs : List Char) : Bool :=
  cs.length == 9 && cs.all isAsciiDigit

/-- The anchored regex `^(\+?255|0)\d{9}$` from `handleSubmitPhone` /
`handleSubmitManualPayment`.  The three admissible prefixes `+255`,
`255` and `0` are mutually exclusive on the first character, so the
alternation is an exact case split. -/
def phoneRegexTest (cs : List Char) : Bool :=
  match cs with
  | '+' :: '2' :: '5' :: '5' :: rest => nineDigits rest
  | '2' :: '5' :: '5' :: rest => nineDigits rest
  | '0' :: rest => nineDigits rest
  | _ => false

/-- Full phone validation of the source: strip whitespace, then test the
regex. -/
def validPhone (s : String) : Bool :=
  phoneRegexTest (stripWsL s.data)

/-- Proof-text gate of `handleSubmitManualPayment`:
`!paymentProof.trim() || paymentProof.trim().length < 10` blocks, so the
input is valid iff the trimmed text is non-empty and has length ≥ 10. -/
def validProof (s : String) : Bool :=
  let t := jsTrimL s.data
  !t.isEmpty && decide (10 ≤ t.length)

/-- `PaymentStep` union type of the source. -/
inductive PaymentStep where
  | method
  | phone
  | initiating
  | waiting
  | manual_info
  | manual_submitting
  | success
  | failed
deriving DecidableEq, Repr

/-- `PaymentMethod` union type of the source. -/
inductive PaymentMethod where
  | ussd
  | manual
deriving DecidableEq, Repr

/-- Payload of `settingsAPI.getPaymentSettings` (`PaymentSettingsData`). -/
structure PaymentSettingsData where
  manualPaymentEnabled : Bool
  manualPaymentPhone : String
  manualPaymentName : String
  manualPaymentInstructions : String
  ussdPaymentEnabled : Bool
deriving DecidableEq, Repr

/-- Payload of a successful `ordersAPI.create` response (`response.data`). -/
structure OrderData where
  id : String
  paymentNetwork : Option String
deriving DecidableEq, Repr

/-- Resolution of the settings fetch: a thrown error, or an
`{success, data?}` envelope (`request` in `api.ts`). -/
inductive SettingsResult where
  | err
  | env (success : Bool) (data : Option PaymentSettingsData)
deriving DecidableEq, Repr

/-- Resolution of `ordersAPI.create`. -/
inductive CreateResult where
  | err
  | env (success : Bool) (data : Option OrderData)
deriving DecidableEq, Repr

/-- Resolution of `ordersAPI.createManual` (only `success` is inspected). -/
inductive ManualResult where
  | err
  | env (success : Bool)
deriving DecidableEq, Repr

/-- Resolution of `ordersAPI.checkPaymentStatus`; the data, when present,
is the `paymentStatus` string. -/
inductive PollResult where
  | err
  | env (success : Bool) (data : Option String)
deriving DecidableEq, Repr

/-- Observable effects of one handler run: gateway calls, alerts and
caller notifications.  `notifySuccessAfter ms` is the
`setTimeout(() => onSuccess(), ms)` scheduling. -/
inductive Action where
  | fetchSettings
  | netCreate (serviceId paymentPhone : String)
  | netCreateManual (serviceId paymentPhone proofText : String)
  | netCheckStatus (orderId : String)
  | netPaymentTimeout (orderId : String)
  | alertInvalidPhone
  | alertProofRequired
  | alertError
  | notifySuccessAfter (ms : Nat)
  | notifyClose
deriving DecidableEq, Repr

/-- The React state of `PaymentModal` for one attempt, plus ghost
counters for the observable calls the claims quantify over.
`pollRef`/`timerRef` hold the order id captured by the corresponding
interval closure when active (`none` = cleared ref). -/
structure ModalState where
  step : PaymentStep
  paymentMethod : PaymentMethod
  phone : String
  secondsLeft : Nat
  network : String
  orderId : Option String
  paymentProof : String
  paymentSettings : Option PaymentSettingsData
  loadingSettings : Bool
  pollRef : Option String
  timerRef : Option String
  closed : Bool
  serviceId : String
  createCalls : Nat
  createOk : Nat
  submitEntries : Nat
  retries : Nat
  notifies : Nat
  settingsFetches : Nat
deriving DecidableEq, Repr

/-- `POLL_INTERVAL` constant of the source. -/
def POLL_INTERVAL : Nat := 3000

/-- `POLL_TIMEOUT` constant of the source. -/
def POLL_TIMEOUT : Nat := 90000

/-- `stopPolling`: clear both interval refs. -/
def stopPolling (s : ModalState) : ModalState :=
  { s with pollRef := none, timerRef := none }

/-- The state a freshly opened modal is in after the `visible` effect has
reset the hooks and issued the settings fetch (counted by the ghost field
`settingsFetches := 1`). -/
def initState (serviceId userPhone : String) : ModalState :=
  { step := .method
    paymentMethod := .ussd
    phone := userPhone
    secondsLeft := 90
    network := ""
    orderId := none
    paymentProof := ""
    paymentSettings := none
    loadingSettings := true
    pollRef := none
    timerRef := none
    closed := false
    serviceId := serviceId
    createCalls := 0
    createOk := 0
    submitEntries := 0
    retries := 0
    notifies := 0
    settingsFetches := 1 }

/-- Resolution of the settings fetch (`settingsAPI.getPaymentSettings()
.then(...).catch(...)` in the `visible` effect). -/
def settingsLoadedHandler (s : ModalState) (r : SettingsResult) :
    ModalState × List Action :=
  match r with
  | .err => ({ s with loadingSettings := false }, [])
  | .env true (some d) =>
    let s1 := { s with paymentSettings := some d }
    if d.ussdPaymentEnabled && !d.manualPaymentEnabled then
      ({ s1 with paymentMethod := .ussd, step := .phone,
                 loadingSettings := false }, [])
    else if !d.ussdPaymentEnabled && d.manualPaymentEnabled then
      ({ s1 with paymentMethod := .manual, step := .manual_info,
                 loadingSettings := false }, [])
    else ({ s1 with loadingSettings := false }, [])
  | .env _ _ => ({ s with loadingSettings := false }, [])

/-- `handleSelectMethod`. -/
def handleSelectMethod (s : ModalState) (m : PaymentMethod) :
    ModalState × List Action :=
  match m with
  | .ussd => ({ s with paymentMethod := .ussd, step := .phone }, [])
  | .manual => ({ s with paymentMethod := .manual, step := .manual_info }, [])

/-- `handleSubmitPhone`, embedded atomically: validation, then the create
call whose resolution is `r`; on success `startPolling(order._id)` sets
both interval refs; on failure the step reverts to `phone` with an
alert. -/
def handleSubmitPhone (s : ModalState) (r : CreateResult) :
    ModalState × List Action :=
  let cleanPhone := stripWsL s.phone.data
  if phoneRegexTest cleanPhone then
    let s1 := { s with submitEntries := s.submitEntries + 1,
                       createCalls := s.createCalls + 1 }
    match r with
    | .env true (some order) =>
      ({ s1 with orderId := some order.id,
                 network := order.paymentNetwork.getD "",
                 secondsLeft := 90,
                 step := .waiting,
                 pollRef := some order.id,
                 timerRef := some order.id,
                 createOk := s1.createOk + 1 },
       [.netCreate s.serviceId (String.mk cleanPhone)])
    | .env _ _ =>
      ({ s1 with step := .phone },
       [.netCreate s.serviceId (String.mk cleanPhone), .alertError])
    | .err =>
      ({ s1 with step := .phone },
       [.netCreate s.serviceId (String.mk cleanPhone), .alertError])
  else (s, [.alertInvalidPhone])

/-- `handleSubmitManualPayment`, embedded atomically: proof gate, phone
gate, then the manual create call; success goes directly to `success`
and schedules `onSuccess` after 1500 ms. -/
def handleSubmitManualPayment (s : ModalState) (r : ManualResult) :
    ModalState × List Action :=
  if !validProof s.paymentProof then (s, [.alertProofRequired])
  else
    let cleanPhone := stripWsL s.phone.data
    if phoneRegexTest cleanPhone then
      let s1 := { s with submitEntries := s.submitEntries + 1,
                         createCalls := s.createCalls + 1 }
      let proofClean := String.mk (jsTrimL s.paymentProof.data)
      match r with
      | .env true =>
        ({ s1 with step := .success,
                   createOk := s1.createOk + 1,
                   notifies := s1.notifies + 1 },
         [.netCreateManual s.serviceId (String.mk cleanPhone) proofClean,
          .notifySuccessAfter 1500])
      | .env false =>
        ({ s1 with step := .manual_info },
         [.netCreateManual s.serviceId (String.mk cleanPhone) proofClean,
          .alertError])
      | .err =>
        ({ s1 with step := .manual_info },
         [.netCreateManual s.serviceId (String.mk cleanPhone) proofClean,
          .alertError])
    else (s, [.alertInvalidPhone])

/-- One tick of the status-poll interval (`pollRef` body): one
`checkPaymentStatus` call; `completed` stops both timers, moves to
`success` and schedules `onSuccess` after 1500 ms; `failed` stops both
timers and moves to `failed`; anything else (thrown error, bad envelope,
missing data, `pending`) changes nothing. -/
def pollTickHandler (s : ModalState) (oid : String) (r : PollResult) :
    ModalState × List Action :=
  match r with
  | .env true (some status) =>
    if status = "completed" then
      ({ stopPolling s with step := .success, notifies := s.notifies + 1 },
       [.netCheckStatus oid, .notifySuccessAfter 1500])
    else if status = "failed" then
      ({ stopPolling s with step := .failed }, [.netCheckStatus oid])
    else (s, [.netCheckStatus oid])
  | .env _ _ => (s, [.netCheckStatus oid])
  | .err => (s, [.netCheckStatus oid])

/-- `handleTimeout`: best-effort `paymentTimeout` notification (its
resolution is swallowed), then `failed`. -/
def handleTimeout (s : ModalState) (oid : String) : ModalState × List Action :=
  ({ s with step := .failed }, [.netPaymentTimeout oid])

/-- One tick of the countdown interval (`timerRef` body):
`remaining = max(0, ceil((POLL_TIMEOUT - elapsed)/1000))`; at zero the
timers stop and `handleTimeout` runs. -/
def countdownTickHandler (s : ModalState) (oid : String) (elapsedMs : Nat) :
    ModalState × List Action :=
  let remaining := if POLL_TIMEOUT ≤ elapsedMs then 0
                   else (POLL_TIMEOUT - elapsedMs + 999) / 1000
  let s1 := { s with secondsLeft := remaining }
  if remaining = 0 then handleTimeout (stopPolling s1) oid
  else (s1, [])

/-- `paymentSettings?.ussdPaymentEnabled && paymentSettings?.manualPaymentEnabled`
(used by `handleBack`). -/
def bothEnabled : Option PaymentSettingsData → Bool
  | some d => d.ussdPaymentEnabled && d.manualPaymentEnabled
  | none => false

/-- `handleClose`: blocked while submitting; while `waiting` it only
shows the confirmation alert (state unchanged); otherwise it stops the
timers and notifies the caller of the close. -/
def handleClose (s : ModalState) : ModalState × List Action :=
  if s.step = .initiating ∨ s.step = .manual_submitting then (s, [])
  else if s.step = .waiting then (s, [])
  else (stopPolling { s with closed := true }, [.notifyClose])

/-- Choosing "Close" in the cancel-confirmation alert shown while
`waiting`. -/
def handleCloseConfirm (s : ModalState) : ModalState × List Action :=
  if s.step = .waiting then
    (stopPolling { s with closed := true }, [.notifyClose])
  else (s, [])

/-- `handleRetry` (the ghost field `retries` counts uses). -/
def handleRetry (s : ModalState) : ModalState × List Action :=
  ({ s with step := .method, orderId := none, paymentProof := "",
            retries := s.retries + 1 }, [])

/-- `handleBack`. -/
def handleBack (s : ModalState) : ModalState × List Action :=
  if s.step = .phone ∨ s.step = .manual_info then
    if bothEnabled s.paymentSettings then ({ s with step := .method }, [])
    else handleClose s
  else (s, [])

/-- Whether the method card for `m` is rendered
(`paymentSettings?.ussdPaymentEnabled` / `...manualPaymentEnabled`). -/
def methodAvailable (s : ModalState) : PaymentMethod → Bool
  | .ussd =>
    match s.paymentSettings with
    | some d => d.ussdPaymentEnabled
    | none => false
  | .manual =>
    match s.paymentSettings with
    | some d => d.manualPaymentEnabled
    | none => false

/-- Events of one attempt.  Each async handler's event carries the
resolution of the gateway call it awaits; a countdown tick carries the
elapsed wall-clock milliseconds and the (ignored) outcome of the
best-effort timeout notification. -/
inductive Event where
  | settingsLoaded (r : SettingsResult)
  | selectMethod (m : PaymentMethod)
  | editPhone (p : String)
  | editProof (t : String)
  | submitPhone (r : CreateResult)
  | submitManual (r : ManualResult)
  | pollTick (r : PollResult)
  | countdownTick (elapsedMs : Nat) (timeoutAck : Bool)
  | closeTap
  | closeConfirm
  | retryTap
  | backTap
  | teardown
deriving DecidableEq, Repr

/-- The transition function of one attempt.  User events are guarded by
the render conditions under which the source exposes the control; timer
events are guarded by the corresponding interval ref being set; after the
modal is closed (unmounted/hidden) every event is inert. -/
def stepEvent (s : ModalState) (e : Event) : ModalState × List Action :=
  if s.closed then (s, [])
  else match e with
  | .settingsLoaded r =>
    if s.loadingSettings then settingsLoadedHandler s r else (s, [])
  | .selectMethod m =>
    if s.step = .method ∧ s.loadingSettings = false ∧ methodAvailable s m then
      handleSelectMethod s m
    else (s, [])
  | .editPhone p =>
    if s.step = .phone ∨ (s.step = .manual_info ∧ s.paymentSettings ≠ none) then
      ({ s with phone := p }, [])
    else (s, [])
  | .editProof t =>
    if s.step = .manual_info ∧ s.paymentSettings ≠ none then
      ({ s with paymentProof := t }, [])
    else (s, [])
  | .submitPhone r =>
    if s.step = .phone then handleSubmitPhone s r else (s, [])
  | .submitManual r =>
    if s.step = .manual_info ∧ s.paymentSettings ≠ none then
      handleSubmitManualPayment s r
    else (s, [])
  | .pollTick r =>
    match s.pollRef with
    | some oid => pollTickHandler s oid r
    | none => (s, [])
  | .countdownTick elapsedMs _ =>
    match s.timerRef with
    | some oid => countdownTickHandler s oid elapsedMs
    | none => (s, [])
  | .closeTap => handleClose s
  | .closeConfirm => handleCloseConfirm s
  | .retryTap => if s.step = .failed then handleRetry s else (s, [])
  | .backTap => handleBack s
  | .teardown => (stopPolling { s with closed := true }, [])

/-- Run a list of events from the freshly opened modal. -/
def run (serviceId userPhone : String) (es : List Event) : ModalState :=
  es.foldl (fun s e => (stepEvent s e).1) (initState serviceId userPhone)

/-- States of one attempt reachable from the freshly opened modal. -/
inductive Reachable (serviceId userPhone : String) : ModalState → Prop where
  | init : Reachable serviceId userPhone (initState serviceId userPhone)
  | next : ∀ {s : ModalState} (e : Event), Reachable serviceId userPhone s →
      Reachable serviceId userPhone (stepEvent s e).1

/-- The spec's state names (§4.1), including the `loading_settings`
pseudo-state. -/
inductive SpecState where
  | loadingSettings
  | methodSelect
  | phoneEntry
  | manualEntry
  | submitting
  | waitingState
  | successState
  | failedState
deriving DecidableEq, Repr

/-- Mapping of the component state onto the spec's machine states: the
loading indicator is rendered when `loadingSettings && step == 'method'`;
otherwise the step determines the spec state. -/
def observedState (s : ModalState) : SpecState :=
  if s.loadingSettings ∧ s.step = .method then .loadingSettings
  else match s.step with
  | .method => .methodSelect
  | .phone => .phoneEntry
  | .initiating => .submitting
  | .waiting => .waitingState
  | .manual_info => .manualEntry
  | .manual_submitting => .submitting
  | .success => .successState
  | .failed => .failedState

/-- The phone grammar in the spec's words (§4.3): after whitespace
stripping, a national-prefix form (`0` + 9 digits) or international form
(`+255`/`255` + 9 digits).  Stated independently of `phoneRegexTest` so
the two can be compared. -/
def PhoneShape (cs : List Char) : Prop :=
  ∃ ds : List Char, ds.length = 9 ∧ (∀ c ∈ ds, isAsciiDigit c = true) ∧
    (cs = '0' :: ds ∨ cs = '2' :: '5' :: '5' :: ds ∨
     cs = '+' :: '2' :: '5' :: '5' :: ds)

/-- Sample payment settings with both rails enabled. -/
def settingsBoth : PaymentSettingsData :=
  ⟨true, "0700000000", "INET SERVICES", "send the exact amount", true⟩

/-- Sample payment settings with only the ussd rail enabled. -/
def settingsUssdOnly : PaymentSettingsData :=
  ⟨false, "", "", "", true⟩

/-- Event trace in which a push submission fails, the flow reverts to
phone entry, and the user submits again (no retry event anywhere). -/
def c1trace : List Event :=
  [.settingsLoaded (.env true (some settingsBoth)), .selectMethod .ussd,
   .editPhone "0712345678", .submitPhone (.env false none),
   .submitPhone (.env true (some ⟨"ord1", some "MPESA"⟩))]

/-- Event trace reaching the `failed` step with ussd-only settings: the
push order succeeds and a poll tick reports `failed`. -/
def c3failTrace : List Event :=
  [.settingsLoaded (.env true (some settingsUssdOnly)),
   .editPhone "0712345678", .submitPhone (.env true (some ⟨"o1", none⟩)),
   .pollTick (.env true (some "failed"))]

/-- `c3failTrace` followed by the user pressing "Try Again". -/
def c3trace : List Event :=
  c3failTrace ++ [.retryTap]

/-- Event trace reaching `waiting` with the poller active for order
"o1". -/
def waitingTrace : List Event :=
  [.settingsLoaded (.env true (some settingsBoth)), .selectMethod .ussd,
   .editPhone "0712345678",
   .submitPhone (.env true (some ⟨"o1", some "MPESA"⟩))]

/-- A phone-entry state holding an invalid phone number. -/
def phoneEntryBad : ModalState :=
  { initState "svc" "0712" with step := .phone, loadingSettings := false }

/-- A manual-entry state holding a too-short payment proof. -/
def manualEntryShortProof : ModalState :=
  { initState "svc" "0712345678" with
    step := .manual_info
    loadingSettings := false
    paymentSettings := some settingsBoth
    paymentProof := "short" }

/-- The state reached when the settings fetch succeeds with both payment
rails disabled. -/
def noMethodState (serviceId userPhone mp mn mi : String) : ModalState :=
  (stepEvent (initState serviceId userPhone)
    (.settingsLoaded (.env true (some ⟨false, mp, mn, mi, false⟩)))).1

end INet

namespace INet

/-- The inductive invariant of one attempt: the two interval refs are
set/cleared together and are set exactly while the attempt is visibly in
`waiting`; the loading flag only ever accompanies the `method` step; the
success callback is scheduled at most once and only on reaching
`success`; without a retry at most one create call has succeeded, and a
successful create confines the step to `waiting`/`success`/`failed`; the
settings fetch is issued exactly once. -/
structure Inv (s : ModalState) : Prop where
  refs_eq : s.pollRef = s.timerRef
  active_iff : s.pollRef ≠ none ↔ (s.step = .waiting ∧ s.closed = false)
  loading_method : s.loadingSettings = true → s.step = .method
  notifies_le : s.notifies ≤ 1
  notifies_success : s.notifies = 1 → s.step = .success
  createOk_bound : s.retries = 0 → s.createOk ≤ 1 ∧
    (1 ≤ s.createOk →
      s.step = .waiting ∨ s.step = .success ∨ s.step = .failed)
  fetch_once : s.settingsFetches = 1

theorem Inv.poll_none {s : ModalState} (h : Inv s) (hw : s.step ≠ .waiting) :
    s.pollRef = none := by
  by_contra hne
  exact hw (h.active_iff.mp hne).1

theorem Inv.timer_none {s : ModalState} (h : Inv s) (hw : s.step ≠ .waiting) :
    s.timerRef = none := h.refs_eq ▸ h.poll_none hw

theorem Inv.notifies_zero {s : ModalState} (h : Inv s)
    (hw : s.step ≠ .success) : s.notifies = 0 := by
  have hle := h.notifies_le
  rcases Nat.eq_or_lt_of_le hle with h1 | h1
  · exact absurd (h.notifies_success h1) hw
  · omega

theorem Inv.createOk_zero {s : ModalState} (h : Inv s) (hr : s.retries = 0)
    (h1 : s.step ≠ .waiting) (h2 : s.step ≠ .success)
    (h3 : s.step ≠ .failed) : s.createOk = 0 := by
  rcases h.createOk_bound hr with ⟨hle, himp⟩
  by_contra hne
  rcases himp (by omega) with hx | hx | hx
  · exact h1 hx
  · exact h2 hx
  · exact h3 hx

/-- Invariant introduction for a state with no active timers that is not
in `waiting`. -/
theorem Inv.mk_inactive {t : ModalState}
    (hp : t.pollRef = none) (ht : t.timerRef = none)
    (hw : t.step ≠ .waiting)
    (hl : t.loadingSettings = true → t.step = .method)
    (hn0 : t.notifies = 0)
    (hcr : t.retries = 0 → t.createOk = 0)
    (hf : t.settingsFetches = 1) : Inv t := by
  refine ⟨?_, ?_, hl, ?_, ?_, ?_, hf⟩
  · rw [hp, ht]
  · constructor
    · intro h'
      exact absurd hp h'
    · intro h'
      exact absurd h'.1 hw
  · omega
  · intro h1
    rw [hn0] at h1
    exact absurd h1 (by omega)
  · intro hr
    rw [hcr hr]
    exact ⟨by omega, fun hx => absurd hx (by omega)⟩

/-- Invariant introduction for a closed state with cleared timers. -/
theorem Inv.mk_closed {t : ModalState}
    (hp : t.pollRef = none) (ht : t.timerRef = none)
    (hcl : t.closed = true)
    (hl : t.loadingSettings = true → t.step = .method)
    (hn : t.notifies ≤ 1) (hns : t.notifies = 1 → t.step = .success)
    (hcr : t.retries = 0 → t.createOk ≤ 1 ∧ (1 ≤ t.createOk →
      t.step = .waiting ∨ t.step = .success ∨ t.step = .failed))
    (hf : t.settingsFetches = 1) : Inv t := by
  refine ⟨?_, ?_, hl, hn, hns, hcr, hf⟩
  · rw [hp, ht]
  · constructor
    · intro h'
      exact absurd hp h'
    · intro h'
      exact Bool.noConfusion (hcl.symm.trans h'.2)

end INet

namespace INet

theorem inv_settingsLoaded {s : ModalState} {r : SettingsResult}
    (hc : s.closed = false) (h : Inv s) :
    Inv (stepEvent s (.settingsLoaded r)).1 := by
  by_cases hl : s.loadingSettings = true
  · have hm := h.loading_method hl
    have hpn := h.poll_none (by simp [hm])
    have htn := h.timer_none (by simp [hm])
    have hn0 := h.notifies_zero (by simp [hm])
    have hcz : s.retries = 0 → s.createOk = 0 := fun hr =>
      h.createOk_zero hr (by simp [hm]) (by simp [hm]) (by simp [hm])
    cases r with
    | err =>
      simp only [stepEvent, hc, hl, settingsLoadedHandler, Bool.false_eq_true,
        if_false, if_true]
      exact Inv.mk_inactive hpn htn (by simp [hm]) (fun _ => hm) hn0 hcz
        h.fetch_once
    | env ok data =>
      cases ok with
      | false =>
        cases data with
        | none =>
          simp only [stepEvent, hc, hl, settingsLoadedHandler,
            Bool.false_eq_true, if_false, if_true]
          exact Inv.mk_inactive hpn htn (by simp [hm]) (fun _ => hm) hn0 hcz
            h.fetch_once
        | some d =>
          simp only [stepEvent, hc, hl, settingsLoadedHandler,
            Bool.false_eq_true, if_false, if_true]
          exact Inv.mk_inactive hpn htn (by simp [hm]) (fun _ => hm) hn0 hcz
            h.fetch_once
      | true =>
        cases data with
        | none =>
          simp only [stepEvent, hc, hl, settingsLoadedHandler,
            Bool.false_eq_true, if_false, if_true]
          exact Inv.mk_inactive hpn htn (by simp [hm]) (fun _ => hm) hn0 hcz
            h.fetch_once
        | some d =>
          cases hu : d.ussdPaymentEnabled <;> cases hmn : d.manualPaymentEnabled <;>
            simp only [stepEvent, hc, hl, settingsLoadedHandler, hu, hmn,
              Bool.false_eq_true, Bool.not_false, Bool.not_true, Bool.and_true,
              Bool.and_false, Bool.true_and, Bool.false_and, if_false, if_true]
          · exact Inv.mk_inactive hpn htn (by simp [hm]) (fun _ => hm) hn0 hcz
              h.fetch_once
          · exact Inv.mk_inactive hpn htn (by simp) (fun hx => by simp at hx)
              hn0 hcz h.fetch_once
          · exact Inv.mk_inactive hpn htn (by simp) (fun hx => by simp at hx)
              hn0 hcz h.fetch_once
          · exact Inv.mk_inactive hpn htn (by simp [hm]) (fun _ => hm) hn0 hcz
              h.fetch_once
  · have hl' : s.loadingSettings = false := by simpa using hl
    simpa [stepEvent, hc, hl'] using h

theorem inv_selectMethod {s : ModalState} {m : PaymentMethod}
    (hc : s.closed = false) (h : Inv s) :
    Inv (stepEvent s (.selectMethod m)).1 := by
  by_cases hg : s.step = .method ∧ s.loadingSettings = false ∧
      methodAvailable s m = true
  · obtain ⟨hm, hl, ha⟩ := hg
    have hpn := h.poll_none (by simp [hm])
    have htn := h.timer_none (by simp [hm])
    have hn0 := h.notifies_zero (by simp [hm])
    have hcz : s.retries = 0 → s.createOk = 0 := fun hr =>
      h.createOk_zero hr (by simp [hm]) (by simp [hm]) (by simp [hm])
    cases m with
    | ussd =>
      simp only [stepEvent, hc, hm, hl, ha, handleSelectMethod,
        Bool.false_eq_true, if_false, and_true, and_self, if_true, if_pos]
      exact Inv.mk_inactive hpn htn (by simp) (fun hx => by simp at hx)
        hn0 hcz h.fetch_once
    | manual =>
      simp only [stepEvent, hc, hm, hl, ha, handleSelectMethod,
        Bool.false_eq_true, if_false, and_true, and_self, if_true, if_pos]
      exact Inv.mk_inactive hpn htn (by simp) (fun hx => by simp at hx)
        hn0 hcz h.fetch_once
  · simpa [stepEvent, hc, hg] using h

theorem inv_editPhone {s : ModalState} {p : String}
    (hc : s.closed = false) (h : Inv s) :
    Inv (stepEvent s (.editPhone p)).1 := by
  by_cases hg : s.step = .phone ∨ (s.step = .manual_info ∧ s.paymentSettings ≠ none)
  · have hw : s.step ≠ .waiting := by
      rcases hg with h1 | ⟨h1, _⟩ <;> simp [h1]
    have hsu : s.step ≠ .success := by
      rcases hg with h1 | ⟨h1, _⟩ <;> simp [h1]
    have hfa : s.step ≠ .failed := by
      rcases hg with h1 | ⟨h1, _⟩ <;> simp [h1]
    have hme : s.step ≠ .method := by
      rcases hg with h1 | ⟨h1, _⟩ <;> simp [h1]
    simp only [stepEvent, hc, hg, Bool.false_eq_true, if_false, if_true]
    exact Inv.mk_inactive (h.poll_none hw) (h.timer_none hw) hw
      (fun hx => absurd (h.loading_method hx) hme) (h.notifies_zero hsu)
      (fun hr => h.createOk_zero hr hw hsu hfa) h.fetch_once
  · simpa [stepEvent, hc, hg] using h

theorem inv_editProof {s : ModalState} {t : String}
    (hc : s.closed = false) (h : Inv s) :
    Inv (stepEvent s (.editProof t)).1 := by
  by_cases hg : s.step = .manual_info ∧ s.paymentSettings ≠ none
  · obtain ⟨h1, h2⟩ := hg
    have hw : s.step ≠ .waiting := by simp [h1]
    have hsu : s.step ≠ .success := by simp [h1]
    have hfa : s.step ≠ .failed := by simp [h1]
    have hme : s.step ≠ .method := by simp [h1]
    simp only [stepEvent, hc, h1, h2, Bool.false_eq_true, if_false, if_true,
      ne_eq, true_and, not_false_eq_true, and_self]
    exact Inv.mk_inactive (h.poll_none hw) (h.timer_none hw) (by simp)
      (fun hx => absurd (h.loading_method hx) hme) (h.notifies_zero hsu)
      (fun hr => h.createOk_zero hr hw hsu hfa) h.fetch_once
  · simpa [stepEvent, hc, hg] using h

theorem inv_retryTap {s : ModalState}
    (hc : s.closed = false) (h : Inv s) :
    Inv (stepEvent s .retryTap).1 := by
  by_cases hg : s.step = .failed
  · have hpn := h.poll_none (by simp [hg])
    have htn := h.timer_none (by simp [hg])
    have hn0 := h.notifies_zero (by simp [hg])
    simp only [stepEvent, hc, hg, handleRetry, Bool.false_eq_true, if_false,
      if_true]
    exact Inv.mk_inactive hpn htn (by simp)
      (fun hx => absurd (h.loading_method hx) (by simp [hg])) hn0
      (fun hr => absurd hr (by simp)) h.fetch_once
  · simpa [stepEvent, hc, hg] using h

theorem inv_closeTap {s : ModalState}
    (hc : s.closed = false) (h : Inv s) :
    Inv (stepEvent s .closeTap).1 := by
  by_cases h1 : s.step = .initiating ∨ s.step = .manual_submitting
  · simpa [stepEvent, hc, handleClose, h1] using h
  · by_cases h2 : s.step = .waiting
    · simpa [stepEvent, hc, handleClose, h1, h2] using h
    · simp only [stepEvent, hc, handleClose, h1, h2, stopPolling,
        Bool.false_eq_true, if_false, if_true]
      exact Inv.mk_closed rfl rfl rfl h.loading_method h.notifies_le
        h.notifies_success h.createOk_bound h.fetch_once

theorem inv_closeConfirm {s : ModalState}
    (hc : s.closed = false) (h : Inv s) :
    Inv (stepEvent s .closeConfirm).1 := by
  by_cases h2 : s.step = .waiting
  · have hn0 := h.notifies_zero (by simp [h2])
    simp only [stepEvent, hc, handleCloseConfirm, h2, stopPolling,
      Bool.false_eq_true, if_false, if_true]
    exact Inv.mk_closed rfl rfl rfl
      (fun hx => absurd (h.loading_method hx) (by simp [h2]))
      (by simp [hn0])
      (fun hx => absurd (hn0.symm.trans hx) (by decide))
      (fun hr => ⟨(h.createOk_bound hr).1, fun _ => Or.inl rfl⟩)
      h.fetch_once
  · simpa [stepEvent, hc, handleCloseConfirm, h2] using h

theorem inv_backTap {s : ModalState}
    (hc : s.closed = false) (h : Inv s) :
    Inv (stepEvent s .backTap).1 := by
  by_cases hg : s.step = .phone ∨ s.step = .manual_info
  · have hw : s.step ≠ .waiting := by rcases hg with h1 | h1 <;> simp [h1]
    have hsu : s.step ≠ .success := by rcases hg with h1 | h1 <;> simp [h1]
    have hfa : s.step ≠ .failed := by rcases hg with h1 | h1 <;> simp [h1]
    have hme : s.step ≠ .method := by rcases hg with h1 | h1 <;> simp [h1]
    by_cases hb : bothEnabled s.paymentSettings = true
    · simp only [stepEvent, hc, handleBack, hg, hb, Bool.false_eq_true,
        if_false, if_true]
      exact Inv.mk_inactive (h.poll_none hw) (h.timer_none hw) (by simp)
        (fun _ => rfl) (h.notifies_zero hsu)
        (fun hr => h.createOk_zero hr hw hsu hfa) h.fetch_once
    · have hni : ¬(s.step = .initiating ∨ s.step = .manual_submitting) := by
        rcases hg with h1 | h1 <;> simp [h1]
      have hb' : bothEnabled s.paymentSettings = false := by simpa using hb
      simp only [stepEvent, hc, handleBack, hg, hb', handleClose, hni, hw,
        stopPolling, Bool.false_eq_true, if_false, if_true]
      exact Inv.mk_closed rfl rfl rfl
        (fun hx => absurd (h.loading_method hx) hme) h.notifies_le
        h.notifies_success h.createOk_bound h.fetch_once
  · simpa [stepEvent, hc, handleBack, hg] using h

theorem inv_teardown {s : ModalState}
    (hc : s.closed = false) (h : Inv s) :
    Inv (stepEvent s .teardown).1 := by
  simp only [stepEvent, hc, stopPolling, Bool.false_eq_true, if_false]
  exact Inv.mk_closed rfl rfl rfl h.loading_method h.notifies_le
    h.notifies_success h.createOk_bound h.fetch_once

end INet

namespace INet

theorem inv_submitPhone {s : ModalState} {r : CreateResult}
    (hc : s.closed = false) (h : Inv s) :
    Inv (stepEvent s (.submitPhone r)).1 := by
  by_cases hg : s.step = .phone
  · have hw : s.step ≠ .waiting := by simp [hg]
    have hsu : s.step ≠ .success := by simp [hg]
    have hfa : s.step ≠ .failed := by simp [hg]
    have hme : s.step ≠ .method := by simp [hg]
    have hpn := h.poll_none hw
    have htn := h.timer_none hw
    have hn0 := h.notifies_zero hsu
    have hcz : s.retries = 0 → s.createOk = 0 := fun hr =>
      h.createOk_zero hr hw hsu hfa
    by_cases hv : phoneRegexTest (stripWsL s.phone.data) = true
    · cases r with
      | err =>
        simp only [stepEvent, hc, hg, handleSubmitPhone, hv,
          Bool.false_eq_true, if_false, if_true]
        exact Inv.mk_inactive hpn htn (by simp)
          (fun hx => absurd (h.loading_method hx) hme) hn0 hcz h.fetch_once
      | env ok data =>
        cases ok with
        | false =>
          cases data <;>
          · simp only [stepEvent, hc, hg, handleSubmitPhone, hv,
              Bool.false_eq_true, if_false, if_true]
            exact Inv.mk_inactive hpn htn (by simp)
              (fun hx => absurd (h.loading_method hx) hme) hn0 hcz h.fetch_once
        | true =>
          cases data with
          | none =>
            simp only [stepEvent, hc, hg, handleSubmitPhone, hv,
              Bool.false_eq_true, if_false, if_true]
            exact Inv.mk_inactive hpn htn (by simp)
              (fun hx => absurd (h.loading_method hx) hme) hn0 hcz h.fetch_once
          | some order =>
            simp only [stepEvent, hc, hg, handleSubmitPhone, hv,
              Bool.false_eq_true, if_false, if_true]
            refine ⟨rfl, ?_, ?_, ?_, ?_, ?_, h.fetch_once⟩
            · constructor
              · intro _
                exact ⟨rfl, rfl⟩
              · intro _
                simp
            · exact fun hx => absurd (h.loading_method hx) hme
            · simpa using h.notifies_le
            · intro hx
              exact absurd (hn0.symm.trans hx) (by decide)
            · intro hr
              refine ⟨by simp [hcz hr], fun _ => Or.inl rfl⟩
    · have hv' : phoneRegexTest (stripWsL s.phone.data) = false := by
        simpa using hv
      simpa [stepEvent, hc, hg, handleSubmitPhone, hv'] using h
  · simpa [stepEvent, hc, hg] using h

theorem inv_submitManual {s : ModalState} {r : ManualResult}
    (hc : s.closed = false) (h : Inv s) :
    Inv (stepEvent s (.submitManual r)).1 := by
  by_cases hg : s.step = .manual_info ∧ s.paymentSettings ≠ none
  · obtain ⟨h1, h2⟩ := hg
    have hw : s.step ≠ .waiting := by simp [h1]
    have hsu : s.step ≠ .success := by simp [h1]
    have hfa : s.step ≠ .failed := by simp [h1]
    have hme : s.step ≠ .method := by simp [h1]
    have hpn := h.poll_none hw
    have htn := h.timer_none hw
    have hn0 := h.notifies_zero hsu
    have hcz : s.retries = 0 → s.createOk = 0 := fun hr =>
      h.createOk_zero hr hw hsu hfa
    by_cases hp : validProof s.paymentProof = true
    · by_cases hv : phoneRegexTest (stripWsL s.phone.data) = true
      · cases r with
        | err =>
          simp only [stepEvent, hc, h1, h2, handleSubmitManualPayment, hp, hv,
            Bool.false_eq_true, if_false, if_true, ne_eq, not_false_eq_true,
            and_self, Bool.not_true]
          exact Inv.mk_inactive hpn htn (by simp)
            (fun hx => absurd (h.loading_method hx) hme) hn0 hcz h.fetch_once
        | env ok =>
          cases ok with
          | false =>
            simp only [stepEvent, hc, h1, h2, handleSubmitManualPayment, hp, hv,
              Bool.false_eq_true, if_false, if_true, ne_eq, not_false_eq_true,
              and_self, Bool.not_true]
            exact Inv.mk_inactive hpn htn (by simp)
              (fun hx => absurd (h.loading_method hx) hme) hn0 hcz h.fetch_once
          | true =>
            simp only [stepEvent, hc, h1, h2, handleSubmitManualPayment, hp, hv,
              Bool.false_eq_true, if_false, if_true, ne_eq, not_false_eq_true,
              and_self, Bool.not_true]
            refine ⟨h.refs_eq, ?_, ?_, ?_, ?_, ?_, h.fetch_once⟩
            · constructor
              · intro h'
                exact absurd hpn h'
              · intro h'
                exact absurd h'.1 (by simp)
            · exact fun hx => absurd (h.loading_method hx) hme
            · simp [hn0]
            · exact fun _ => rfl
            · intro hr
              exact ⟨by simp [hcz hr], fun _ => Or.inr (Or.inl rfl)⟩
      · have hv' : phoneRegexTest (stripWsL s.phone.data) = false := by
          simpa using hv
        simpa [stepEvent, hc, h1, h2, handleSubmitManualPayment, hp, hv'] using h
    · have hp' : validProof s.paymentProof = false := by simpa using hp
      simpa [stepEvent, hc, h1, h2, handleSubmitManualPayment, hp'] using h
  · simpa [stepEvent, hc, hg] using h

theorem inv_pollTick {s : ModalState} {r : PollResult}
    (hc : s.closed = false) (h : Inv s) :
    Inv (stepEvent s (.pollTick r)).1 := by
  cases hpr : s.pollRef with
  | none => simpa [stepEvent, hc, hpr] using h
  | some oid =>
    have hw : s.step = .waiting := (h.active_iff.mp (by simp [hpr])).1
    have hn0 := h.notifies_zero (by simp [hw])
    cases r with
    | err => simpa [stepEvent, hc, hpr, pollTickHandler] using h
    | env ok data =>
      cases ok with
      | false => cases data <;> simpa [stepEvent, hc, hpr, pollTickHandler] using h
      | true =>
        cases data with
        | none => simpa [stepEvent, hc, hpr, pollTickHandler] using h
        | some status =>
          by_cases hs1 : status = "completed"
          · simp only [stepEvent, hc, hpr, pollTickHandler, hs1, stopPolling,
              Bool.false_eq_true, if_false, if_true]
            refine ⟨rfl, ?_, ?_, ?_, ?_, ?_, h.fetch_once⟩
            · constructor
              · intro h'
                exact absurd rfl h'
              · intro h'
                exact absurd h'.1 (by simp)
            · exact fun hx => absurd (h.loading_method hx) (by simp [hw])
            · simp [hn0]
            · exact fun _ => rfl
            · intro hr
              exact ⟨(h.createOk_bound hr).1, fun _ => Or.inr (Or.inl rfl)⟩
          · by_cases hs2 : status = "failed"
            · simp only [stepEvent, hc, hpr, pollTickHandler, hs1, hs2,
                stopPolling, Bool.false_eq_true, if_false, if_true]
              refine ⟨rfl, ?_, ?_, ?_, ?_, ?_, h.fetch_once⟩
              · constructor
                · intro h'
                  exact absurd rfl h'
                · intro h'
                  exact absurd h'.1 (by simp)
              · exact fun hx => absurd (h.loading_method hx) (by simp [hw])
              · simp [hn0]
              · intro hx
                exact absurd (hn0.symm.trans hx) (by decide)
              · intro hr
                exact ⟨(h.createOk_bound hr).1, fun _ => Or.inr (Or.inr rfl)⟩
            · simpa [stepEvent, hc, hpr, pollTickHandler, hs1, hs2] using h

theorem inv_countdownTick {s : ModalState} {elapsedMs : Nat} {ack : Bool}
    (hc : s.closed = false) (h : Inv s) :
    Inv (stepEvent s (.countdownTick elapsedMs ack)).1 := by
  cases htr : s.timerRef with
  | none => simpa [stepEvent, hc, htr] using h
  | some oid =>
    have hpr : s.pollRef = some oid := h.refs_eq.trans htr
    have hw : s.step = .waiting := (h.active_iff.mp (by simp [hpr])).1
    have hn0 := h.notifies_zero (by simp [hw])
    by_cases he : POLL_TIMEOUT ≤ elapsedMs
    · simp only [stepEvent, hc, htr, countdownTickHandler, he, handleTimeout,
        stopPolling, Bool.false_eq_true, if_false, if_true]
      refine ⟨rfl, ?_, ?_, ?_, ?_, ?_, h.fetch_once⟩
      · constructor
        · intro h'
          exact absurd rfl h'
        · intro h'
          exact absurd h'.1 (by simp)
      · exact fun hx => absurd (h.loading_method hx) (by simp [hw])
      · simp [hn0]
      · intro hx
        exact absurd (hn0.symm.trans hx) (by decide)
      · intro hr
        exact ⟨(h.createOk_bound hr).1, fun _ => Or.inr (Or.inr rfl)⟩
    · have hrem : ¬((POLL_TIMEOUT - elapsedMs + 999) / 1000 = 0) := by
        have hlt : elapsedMs < POLL_TIMEOUT := by omega
        have : 1000 ≤ POLL_TIMEOUT - elapsedMs + 999 := by omega
        intro hzero
        rw [Nat.div_eq_zero_iff (by omega : 0 < 1000)] at hzero
        omega
      simp only [stepEvent, hc, htr, countdownTickHandler, he, hrem,
        Bool.false_eq_true, if_false, if_true]
      refine ⟨hpr, ?_, h.loading_method, h.notifies_le, h.notifies_success,
        h.createOk_bound, h.fetch_once⟩
      constructor
      · intro _
        exact ⟨hw, rfl⟩
      · intro _
        simp [hpr]

/-- The invariant is preserved by every event. -/
theorem inv_step (s : ModalState) (e : Event) (h : Inv s) :
    Inv (stepEvent s e).1 := by
  by_cases hc : s.closed = true
  · simpa [stepEvent, hc] using h
  · have hc' : s.closed = false := by simpa using hc
    cases e with
    | settingsLoaded r => exact inv_settingsLoaded hc' h
    | selectMethod m => exact inv_selectMethod hc' h
    | editPhone p => exact inv_editPhone hc' h
    | editProof t => exact inv_editProof hc' h
    | submitPhone r => exact inv_submitPhone hc' h
    | submitManual r => exact inv_submitManual hc' h
    | pollTick r => exact inv_pollTick hc' h
    | countdownTick elapsedMs ack => exact inv_countdownTick hc' h
    | closeTap => exact inv_closeTap hc' h
    | closeConfirm => exact inv_closeConfirm hc' h
    | retryTap => exact inv_retryTap hc' h
    | backTap => exact inv_backTap hc' h
    | teardown => exact inv_teardown hc' h

/-- The freshly opened modal satisfies the invariant. -/
theorem inv_init (serviceId userPhone : String) :
    Inv (initState serviceId userPhone) := by
  refine ⟨rfl, ?_, fun _ => rfl, by simp [initState], ?_, ?_, rfl⟩
  · constructor
    · intro h'
      exact absurd rfl h'
    · intro h'
      exact absurd h'.1 (by simp [initState])
  · intro hx
    simp [initState] at hx
  · intro _
    exact ⟨by simp [initState], fun hx => by simp [initState] at hx⟩

/-- Every reachable state of one attempt satisfies the invariant. -/
theorem inv_reachable {serviceId userPhone : String} {s : ModalState}
    (h : Reachable serviceId userPhone s) : Inv s := by
  induction h with
  | init => exact inv_init serviceId userPhone
  | next e _ ih => exact inv_step _ e ih

/-- The result of running any event list from the freshly opened modal is
reachable. -/
theorem reachable_run (serviceId userPhone : String) (es : List Event) :
    Reachable serviceId userPhone (run serviceId userPhone es) := by
  suffices hgen : ∀ (l : List Event) (s : ModalState),
      Reachable serviceId userPhone s →
      Reachable serviceId userPhone
        (l.foldl (fun t e => (stepEvent t e).1) s) by
    exact hgen es (initState serviceId userPhone) Reachable.init
  intro l
  induction l with
  | nil => intro s hs; exact hs
  | cons e tl ih =>
    intro s hs
    exact ih (stepEvent s e).1 (Reachable.next e hs)

end INet

namespace INet

theorem nineDigits_iff (cs : List Char) :
    nineDigits cs = true ↔ cs.length = 9 ∧ ∀ c ∈ cs, isAsciiDigit c = true := by
  simp [nineDigits, List.all_eq_true]

/-- The source's anchored regex accepts exactly the spec's phone
grammar. -/
theorem phoneRegexTest_iff (cs : List Char) :
    phoneRegexTest cs = true ↔ PhoneShape cs := by
  constructor
  · intro h
    unfold phoneRegexTest at h
    split at h
    · obtain ⟨hlen, hall⟩ := (nineDigits_iff _).mp h
      exact ⟨_, hlen, hall, Or.inr (Or.inr rfl)⟩
    · obtain ⟨hlen, hall⟩ := (nineDigits_iff _).mp h
      exact ⟨_, hlen, hall, Or.inr (Or.inl rfl)⟩
    · obtain ⟨hlen, hall⟩ := (nineDigits_iff _).mp h
      exact ⟨_, hlen, hall, Or.inl rfl⟩
    · exact absurd h (by simp)
  · rintro ⟨ds, hlen, hall, (rfl | rfl | rfl)⟩ <;>
    · simp only [phoneRegexTest]
      exact (nineDigits_iff _).mpr ⟨hlen, hall⟩

theorem validProof_iff (s : String) :
    validProof s = true ↔ 10 ≤ (jsTrimL s.data).length := by
  rcases ht : jsTrimL s.data with _ | ⟨a, tl⟩ <;> simp [validProof, ht]

end INet

namespace INet

/-- C4: phone validation strips all whitespace and then accepts a string
iff it is `0`, `255` or `+255` followed by exactly nine digits; the
spec's example inputs are accepted/rejected accordingly; and an invalid
phone blocks the push submission locally — the state is unchanged and the
only emitted action is the invalid-number alert, with no gateway call. -/
theorem C4_phone_validation :
    (∀ s : String, validPhone s = true ↔ PhoneShape (stripWsL s.data)) ∧
    validPhone "0712345678" = true ∧
    validPhone "+255712345678" = true ∧
    validPhone "255712345678" = true ∧
    validPhone "0712" = false ∧
    validPhone "071234567890" = false ∧
    validPhone "abc1234567" = false ∧
    validPhone "" = false ∧
    (∀ (st : ModalState) (r : CreateResult),
      st.closed = false → st.step = .phone → validPhone st.phone = false →
      stepEvent st (.submitPhone r) = (st, [.alertInvalidPhone])) := by
  refine ⟨fun s => phoneRegexTest_iff _, by decide, by decide, by decide,
    by decide, by decide, by decide, by decide, ?_⟩
  intro st r hcl hstep hval
  have hv' : phoneRegexTest (stripWsL st.phone.data) = false := hval
  simp [stepEvent, hcl, hstep, handleSubmitPhone, hv']

/-- C4 witness: the local rejection at the concrete invalid input
"0712". -/
theorem C4_phone_validation_witness :
    stepEvent phoneEntryBad (.submitPhone (.env true none)) =
      (phoneEntryBad, [.alertInvalidPhone]) :=
  C4_phone_validation.2.2.2.2.2.2.2.2 phoneEntryBad (.env true none)
    rfl rfl (by decide)

/-- C5: manual proof validation accepts a string iff its trimmed form has
length at least ten (hence in particular is non-empty); the spec's
example inputs are rejected; and an invalid proof blocks the manual
submission locally — the state is unchanged and the only emitted action
is the proof-required alert, with no gateway call. -/
theorem C5_proof_validation :
    (∀ s : String, validProof s = true ↔ 10 ≤ (jsTrimL s.data).length) ∧
    validProof "short" = false ∧
    validProof "   " = false ∧
    validProof "" = false ∧
    validProof "TXN 1234567890 CONFIRMED" = true ∧
    (∀ (st : ModalState) (r : ManualResult),
      st.closed = false → st.step = .manual_info →
      st.paymentSettings ≠ none → validProof st.paymentProof = false →
      stepEvent st (.submitManual r) = (st, [.alertProofRequired])) := by
  refine ⟨fun s => validProof_iff s, by decide, by decide, by decide,
    by decide, ?_⟩
  intro st r hcl hstep hset hval
  simp [stepEvent, hcl, hstep, hset, handleSubmitManualPayment, hval]

/-- C5 witness: the local rejection at the concrete proof text "short". -/
theorem C5_proof_validation_witness :
    stepEvent manualEntryShortProof (.submitManual (.env true)) =
      (manualEntryShortProof, [.alertProofRequired]) :=
  C5_proof_validation.2.2.2.2.2 manualEntryShortProof (.env true)
    rfl rfl (by decide) (by decide)

/-- C1 counterexample: in `c1trace` no retry occurs, yet the submitting
state is entered twice and the create-order gateway call is issued twice,
because the failed first submission reverts to phone entry and the user
submits again. -/
theorem C1_counterexample :
    (run "svc" "" c1trace).retries = 0 ∧
    (run "svc" "" c1trace).submitEntries = 2 ∧
    (run "svc" "" c1trace).createCalls = 2 := by decide

/-- C1 (amended): within one attempt containing no explicit retry, at
most one create-order call ever succeeds; the call can be re-issued only
after a failed submission has reverted the flow to its entry state. -/
theorem C1_single_successful_create (serviceId userPhone : String)
    (s : ModalState) (h : Reachable serviceId userPhone s)
    (hr : s.retries = 0) : s.createOk ≤ 1 :=
  ((inv_reachable h).createOk_bound hr).1

/-- C1 witness: the amended bound at the concrete double-submission
trace. -/
theorem C1_witness :
    (run "svc" "" c1trace).retries = 0 ∧
    (run "svc" "" c1trace).createOk ≤ 1 :=
  ⟨by decide, C1_single_successful_create "svc" "" _
    (reachable_run "svc" "" c1trace) (by decide)⟩

/-- C2 counterexample: after a failed settings fetch (thrown error, or a
success=false envelope) the loading flag is cleared and the observable
state is method_select — the flow does not remain in the
loading_settings pseudo-state. -/
theorem C2_counterexample :
    (run "svc" "" [.settingsLoaded .err]).loadingSettings = false ∧
    observedState (run "svc" "" [.settingsLoaded .err]) = .methodSelect ∧
    observedState (run "svc" "" [.settingsLoaded (.env false none)]) =
      .methodSelect := by decide

/-- C2 (amended): a failed settings fetch leaves the flow in
method_select with no stored settings — hence no selectable method — and
the settings fetch is issued exactly once per attempt, never retried. -/
theorem C2_settings_fetch_failure (serviceId userPhone : String)
    (r : SettingsResult)
    (hfail : r = .err ∨ (∃ d, r = .env false d) ∨ r = .env true none) :
    observedState
        (stepEvent (initState serviceId userPhone) (.settingsLoaded r)).1 =
      .methodSelect ∧
    (stepEvent (initState serviceId userPhone)
        (.settingsLoaded r)).1.paymentSettings = none ∧
    (∀ m, methodAvailable
        (stepEvent (initState serviceId userPhone) (.settingsLoaded r)).1 m =
      false) ∧
    (∀ s, Reachable serviceId userPhone s → s.settingsFetches = 1) := by
  refine ⟨?_, ?_, ?_, fun s hs => (inv_reachable hs).fetch_once⟩
  · rcases hfail with rfl | ⟨d, rfl⟩ | rfl <;>
      simp [stepEvent, initState, settingsLoadedHandler, observedState]
  · rcases hfail with rfl | ⟨d, rfl⟩ | rfl <;>
      simp [stepEvent, initState, settingsLoadedHandler]
  · intro m
    rcases hfail with rfl | ⟨d, rfl⟩ | rfl <;> cases m <;>
      simp [stepEvent, initState, settingsLoadedHandler, methodAvailable]

/-- C2 witness: the amended statement at the concrete thrown-error
resolution. -/
theorem C2_witness :
    observedState (stepEvent (initState "svc" "") (.settingsLoaded .err)).1 =
      .methodSelect ∧
    (stepEvent (initState "svc" "")
        (.settingsLoaded .err)).1.paymentSettings = none ∧
    (∀ m, methodAvailable
        (stepEvent (initState "svc" "") (.settingsLoaded .err)).1 m =
      false) ∧
    (∀ s, Reachable "svc" "" s → s.settingsFetches = 1) :=
  C2_settings_fetch_failure "svc" "" .err (Or.inl rfl)

/-- C3 counterexample: with ussd-only settings, after reaching failed and
retrying, the observable state is method_select, not the pre-selected
phone_entry state the claim requires for a single enabled method. -/
theorem C3_counterexample :
    (run "svc" "" c3trace).paymentSettings = some settingsUssdOnly ∧
    settingsUssdOnly.ussdPaymentEnabled = true ∧
    settingsUssdOnly.manualPaymentEnabled = false ∧
    observedState (run "svc" "" c3trace) = .methodSelect ∧
    ¬ observedState (run "svc" "" c3trace) = .phoneEntry := by decide

/-- C3 (amended): retrying from failed always clears orderId and
proofText and lands in method_select, regardless of which payment methods
the fetched settings enable. -/
theorem C3_retry_resets (serviceId userPhone : String) (s : ModalState)
    (h : Reachable serviceId userPhone s) (hcl : s.closed = false)
    (hf : s.step = .failed) :
    (stepEvent s .retryTap).1.orderId = none ∧
    (stepEvent s .retryTap).1.paymentProof = "" ∧
    (stepEvent s .retryTap).1.step = .method ∧
    observedState (stepEvent s .retryTap).1 = .methodSelect := by
  have hl : s.loadingSettings = false := by
    by_contra hx
    have hm := (inv_reachable h).loading_method (by simpa using hx)
    rw [hf] at hm
    exact absurd hm (by decide)
  simp [stepEvent, hcl, hf, handleRetry, observedState, hl]

/-- C3 witness: the amended reset at the concrete failed state reached
with ussd-only settings. -/
theorem C3_retry_resets_witness :
    (stepEvent (run "svc" "" c3failTrace) .retryTap).1.orderId = none ∧
    (stepEvent (run "svc" "" c3failTrace) .retryTap).1.paymentProof = "" ∧
    (stepEvent (run "svc" "" c3failTrace) .retryTap).1.step = .method ∧
    observedState (stepEvent (run "svc" "" c3failTrace) .retryTap).1 =
      .methodSelect :=
  C3_retry_resets "svc" "" _ (reachable_run "svc" "" c3failTrace)
    (by decide) (by decide)

end INet

namespace INet

/-- C6: in every reachable configuration of one attempt that is still
open, the status-poll timer and the countdown timer are both active iff
the step is waiting; every transition whose result is not waiting leaves
both timers cleared; and with no active poll timer a poll tick changes
nothing and issues no status-check call. -/
theorem C6_timers_iff_waiting (serviceId userPhone : String)
    (s : ModalState) (h : Reachable serviceId userPhone s) :
    (s.closed = false →
      ((s.pollRef ≠ none ∧ s.timerRef ≠ none) ↔ s.step = .waiting)) ∧
    (∀ e : Event, (stepEvent s e).1.step ≠ .waiting →
      (stepEvent s e).1.pollRef = none ∧
      (stepEvent s e).1.timerRef = none) ∧
    (s.pollRef = none →
      ∀ r : PollResult, stepEvent s (.pollTick r) = (s, [])) := by
  have hi := inv_reachable h
  refine ⟨?_, ?_, ?_⟩
  · intro hcl
    constructor
    · rintro ⟨hp, _⟩
      exact (hi.active_iff.mp hp).1
    · intro hw
      have hp : s.pollRef ≠ none := hi.active_iff.mpr ⟨hw, hcl⟩
      exact ⟨hp, fun hx => hp (hi.refs_eq.trans hx)⟩
  · intro e hne
    have hi' := inv_step s e hi
    have hp : (stepEvent s e).1.pollRef = none := by
      by_contra hx
      exact hne (hi'.active_iff.mp hx).1
    exact ⟨hp, hi'.refs_eq.symm.trans hp⟩
  · intro hp r
    by_cases hcl : s.closed = true <;> simp [stepEvent, hcl, hp]

/-- C6 witness: the iff at the concrete reachable waiting state. -/
theorem C6_timers_iff_waiting_witness :
    ((run "svc" "" waitingTrace).pollRef ≠ none ∧
      (run "svc" "" waitingTrace).timerRef ≠ none) ↔
    (run "svc" "" waitingTrace).step = .waiting :=
  (C6_timers_iff_waiting "svc" "" _
    (reachable_run "svc" "" waitingTrace)).1 (by decide)

/-- C7: a completed poll while the poller is active stops both timers,
moves the step to success, and schedules the caller's success callback
after the fixed 1500 ms delay (not immediately); across the whole attempt
the callback is scheduled at most once, this also holds after any further
event, and any event whose result is the failed step has never scheduled
the callback. -/
theorem C7_completed_notifies_once (serviceId userPhone : String)
    (s : ModalState) (h : Reachable serviceId userPhone s) :
    (∀ oid : String, s.pollRef = some oid →
      (stepEvent s (.pollTick (.env true (some "completed")))).1.step =
        .success ∧
      (stepEvent s (.pollTick (.env true (some "completed")))).1.pollRef =
        none ∧
      (stepEvent s (.pollTick (.env true (some "completed")))).1.timerRef =
        none ∧
      (stepEvent s (.pollTick (.env true (some "completed")))).2 =
        [.netCheckStatus oid, .notifySuccessAfter 1500] ∧
      (stepEvent s (.pollTick (.env true (some "completed")))).1.notifies =
        s.notifies + 1) ∧
    s.notifies ≤ 1 ∧
    (∀ e : Event, (stepEvent s e).1.notifies ≤ 1) ∧
    (∀ e : Event, (stepEvent s e).1.step = .failed →
      (stepEvent s e).1.notifies = 0) := by
  have hi := inv_reachable h
  refine ⟨?_, hi.notifies_le, fun e => (inv_step s e hi).notifies_le, ?_⟩
  · intro oid hpr
    have hcl : s.closed = false := (hi.active_iff.mp (by simp [hpr])).2
    simp [stepEvent, hcl, hpr, pollTickHandler, stopPolling]
  · intro e hf
    have hi' := inv_step s e hi
    have hle := hi'.notifies_le
    rcases Nat.eq_or_lt_of_le hle with h1 | h1
    · have hsu := hi'.notifies_success h1
      rw [hf] at hsu
      exact absurd hsu (by decide)
    · omega

/-- C7 witness: the completed-poll transition at the concrete reachable
waiting state for order "o1". -/
theorem C7_completed_notifies_once_witness :
    (stepEvent (run "svc" "" waitingTrace)
        (.pollTick (.env true (some "completed")))).1.step = .success ∧
    (stepEvent (run "svc" "" waitingTrace)
        (.pollTick (.env true (some "completed")))).1.pollRef = none ∧
    (stepEvent (run "svc" "" waitingTrace)
        (.pollTick (.env true (some "completed")))).1.timerRef = none ∧
    (stepEvent (run "svc" "" waitingTrace)
        (.pollTick (.env true (some "completed")))).2 =
      [.netCheckStatus "o1", .notifySuccessAfter 1500] ∧
    (stepEvent (run "svc" "" waitingTrace)
        (.pollTick (.env true (some "completed")))).1.notifies =
      (run "svc" "" waitingTrace).notifies + 1 :=
  (C7_completed_notifies_once "svc" "" _
    (reachable_run "svc" "" waitingTrace)).1 "o1" (by decide)

/-- C8: a countdown tick at or past the 90-second budget while the
attempt is waiting clears both timers, emits the best-effort timeout
notification for the captured order, and moves the step to failed; state
and actions are identical whether the notification call succeeds or
throws. -/
theorem C8_timeout_failed (s : ModalState) (oid : String)
    (elapsedMs : Nat) (ack1 ack2 : Bool) (hcl : s.closed = false)
    (hw : s.step = .waiting) (htr : s.timerRef = some oid)
    (he : POLL_TIMEOUT ≤ elapsedMs) :
    (stepEvent s (.countdownTick elapsedMs ack1)).1.step = .failed ∧
    (stepEvent s (.countdownTick elapsedMs ack1)).1.pollRef = none ∧
    (stepEvent s (.countdownTick elapsedMs ack1)).1.timerRef = none ∧
    (stepEvent s (.countdownTick elapsedMs ack1)).2 =
      [.netPaymentTimeout oid] ∧
    stepEvent s (.countdownTick elapsedMs ack1) =
      stepEvent s (.countdownTick elapsedMs ack2) := by
  simp [stepEvent, hcl, htr, countdownTickHandler, he, handleTimeout,
    stopPolling]

/-- C8 witness: the timeout transition at the concrete waiting state,
with the notification succeeding on one side and throwing on the other. -/
theorem C8_timeout_failed_witness :
    (stepEvent (run "svc" "" waitingTrace)
        (.countdownTick 90000 true)).1.step = .failed ∧
    (stepEvent (run "svc" "" waitingTrace)
        (.countdownTick 90000 true)).1.pollRef = none ∧
    (stepEvent (run "svc" "" waitingTrace)
        (.countdownTick 90000 true)).1.timerRef = none ∧
    (stepEvent (run "svc" "" waitingTrace) (.countdownTick 90000 true)).2 =
      [.netPaymentTimeout "o1"] ∧
    stepEvent (run "svc" "" waitingTrace) (.countdownTick 90000 true) =
      stepEvent (run "svc" "" waitingTrace) (.countdownTick 90000 false) :=
  C8_timeout_failed (run "svc" "" waitingTrace) "o1" 90000 true false
    (by decide) (by decide) (by decide) (by decide)

/-- C9: a failing status-check tick — thrown error, a success=false
envelope, or a success envelope with no data — leaves the attempt's state
exactly unchanged (timers still running, no alert, no step change) and
emits only the status-check call itself, so the check is simply retried
on the next tick. -/
theorem C9_transient_poll_failure (s : ModalState) (oid : String)
    (r : PollResult) (hcl : s.closed = false)
    (hpr : s.pollRef = some oid)
    (hfail : r = .err ∨ (∃ d, r = .env false d) ∨ r = .env true none) :
    stepEvent s (.pollTick r) = (s, [.netCheckStatus oid]) := by
  rcases hfail with rfl | ⟨d, rfl⟩ | rfl
  · simp [stepEvent, hcl, hpr, pollTickHandler]
  · cases d <;> simp [stepEvent, hcl, hpr, pollTickHandler]
  · simp [stepEvent, hcl, hpr, pollTickHandler]

/-- C9 witness: a thrown status-check error at the concrete waiting
state leaves the state unchanged. -/
theorem C9_transient_poll_failure_witness :
    stepEvent (run "svc" "" waitingTrace) (.pollTick .err) =
      (run "svc" "" waitingTrace, [.netCheckStatus "o1"]) :=
  C9_transient_poll_failure (run "svc" "" waitingTrace) "o1" .err
    (by decide) (by decide) (Or.inl rfl)

/-- C10: when the settings fetch succeeds with both rails disabled, the
flow lands in method_select with the settings stored but no selectable
method and no preselection side effect (the method stays at its reset
default), and every subsequent event other than closing the flow or
tearing it down leaves the state unchanged. -/
theorem C10_no_method_enabled (serviceId userPhone mp mn mi : String) :
    observedState (noMethodState serviceId userPhone mp mn mi) =
      .methodSelect ∧
    (noMethodState serviceId userPhone mp mn mi).step = .method ∧
    (noMethodState serviceId userPhone mp mn mi).paymentMethod = .ussd ∧
    (noMethodState serviceId userPhone mp mn mi).paymentSettings =
      some ⟨false, mp, mn, mi, false⟩ ∧
    (∀ m, methodAvailable (noMethodState serviceId userPhone mp mn mi) m =
      false) ∧
    (∀ e : Event,
      (stepEvent (noMethodState serviceId userPhone mp mn mi) e).1 =
        noMethodState serviceId userPhone mp mn mi ∨
      (stepEvent (noMethodState serviceId userPhone mp mn mi) e).1 =
        stopPolling
          { noMethodState serviceId userPhone mp mn mi with
            closed := true }) := by
  refine ⟨rfl, rfl, rfl, rfl, ?_, ?_⟩
  · intro m
    cases m <;> rfl
  · intro e
    cases e with
    | settingsLoaded r => exact Or.inl rfl
    | selectMethod m => cases m <;> exact Or.inl rfl
    | editPhone p => exact Or.inl rfl
    | editProof t => exact Or.inl rfl
    | submitPhone r => exact Or.inl rfl
    | submitManual r => exact Or.inl rfl
    | pollTick r => exact Or.inl rfl
    | countdownTick elapsedMs ack => exact Or.inl rfl
    | closeTap => exact Or.inr rfl
    | closeConfirm => exact Or.inl rfl
    | retryTap => exact Or.inl rfl
    | backTap => exact Or.inl rfl
    | teardown => exact Or.inr rfl

end INet
